import Mathlib

/-!
Verification development for the substack-translator service.

The JavaScript sources are shallowly embedded: strings are manipulated as
`List Char` (mirroring JavaScript string scanning), fallible code returns
`Except`, the module-level translation cache becomes an explicit association
list threaded through `translatePost`, and the upstream chat-completion call
becomes an injected function `String → Except String (List String)` returning
the reply's content blocks (the JavaScript reads `response.content[0].text`).
Scanning loops that are not structurally recursive are written with an explicit
fuel argument initialised to the input length, which always suffices because
every step consumes at least one character.
-/

namespace ST

/-- JavaScript whitespace (the set trimmed by `String.prototype.trim`):
tab, LF, VT, FF, CR, space, NBSP, BOM, the Unicode space separators and the
line separators. -/
def isJsWs (c : Char) : Bool :=
  [' ', '\t', '\n', '\x0b', '\x0c', '\r', '\u00a0', '\u1680', '\u2000',
   '\u2001', '\u2002', '\u2003', '\u2004', '\u2005', '\u2006', '\u2007',
   '\u2008', '\u2009', '\u200a', '\u2028', '\u2029', '\u202f', '\u205f',
   '\u3000', '\ufeff'].contains c

/-- Model of JavaScript `str.trim()` on a character list: drop whitespace from
both ends. -/
def trimChars (cs : List Char) : List Char :=
  ((cs.dropWhile isJsWs).reverse.dropWhile isJsWs).reverse

/-- Model of JavaScript `str.trim()` on strings. -/
def jsTrim (s : String) : String := ⟨trimChars s.data⟩

/-- JavaScript `a || b` for strings: `a` when truthy (non-empty), else `b`. -/
def jsOrS (a b : String) : String := if a = "" then b else a

/-- Model of JavaScript `str.split("\n")`: split at every newline character;
always returns at least one (possibly empty) piece. -/
def splitNl : List Char → List (List Char)
  | [] => [[]]
  | c :: rest =>
    if c = '\n' then [] :: splitNl rest
    else
      match splitNl rest with
      | [] => [[c]]
      | t :: ts => (c :: t) :: ts

/-- Model of JavaScript `lines.join("\n")`. -/
def joinNl : List (List Char) → List Char
  | [] => []
  | [l] => l
  | l :: l' :: ls => l ++ '\n' :: joinNl (l' :: ls)

/-! ## TranslationPipeline (src: translator.js, `translatePost`) -/

/-- The `{ title, subtitle, content }` record produced by the pipeline. -/
structure TranslatedFields where
  title : String
  subtitle : String
  content : String
deriving DecidableEq

/-- The line-scanning loop of `translatePost` (translator.js lines 49-60),
carried over the remaining lines with state
(`translatedTitle`, `translatedSubtitle`, `contentLines`, `pastHeaders`).
`line.replace(/^# /, "")` is `drop 2` under the `startsWith "# "` guard, and
`line.replace(/^### /, "")` is `drop 4`. -/
def parseScan : List (List Char) → List Char → List Char → List (List Char) → Bool →
    List Char × List Char × List (List Char)
  | [], tt, ts, acc, _ => (tt, ts, acc)
  | l :: rest, tt, ts, acc, ph =>
    if !ph && ['#', ' '].isPrefixOf l && tt.isEmpty then
      parseScan rest (l.drop 2) ts acc ph
    else if !ph && ['#', '#', '#', ' '].isPrefixOf l && ts.isEmpty then
      parseScan rest tt (l.drop 4) acc ph
    else if (trimChars l).isEmpty && !ph && acc.isEmpty then
      parseScan rest tt ts acc ph
    else
      parseScan rest tt ts (acc ++ [l]) true

/-- Parsing a free-text translated reply back into `{title, subtitle, content}`
(translator.js lines 43-66): scan the lines, then fall back to the source title
and subtitle when no header was captured (JavaScript `translatedTitle || title`),
and join the accumulated body lines with `"\n"` and trim. Total: never fails. -/
def parseReply (reply title subtitle : String) : TranslatedFields :=
  let r := parseScan (splitNl reply.data) [] [] [] false
  { title := if r.1.isEmpty then title else ⟨r.1⟩
    subtitle := if r.2.1.isEmpty then subtitle else ⟨r.2.1⟩
    content := ⟨trimChars (joinNl r.2.2)⟩ }

/-- The in-memory cache `postId -> TranslatedFields` (a JavaScript `Map`),
modelled as an association list; `Map.set` prepends, `Map.get`/`Map.has`
use `List.lookup`. -/
abbrev Cache := List (String × TranslatedFields)

/-- translator.js `isCached`. -/
def isCached (cache : Cache) (postId : String) : Bool :=
  (cache.lookup postId).isSome

/-- The text block sent upstream (translator.js lines 21-26): a `# title` line
when the title is truthy, a `### subtitle` line when truthy, the content when
truthy, joined by blank lines. -/
def buildText (title subtitle content : String) : String :=
  String.intercalate "\n\n"
    ((if title = "" then [] else ["# " ++ title]) ++
     (if subtitle = "" then [] else ["### " ++ subtitle]) ++
     (if content = "" then [] else [content]))

/-- The user-message prompt wrapping the text block (translator.js line 35). -/
def promptFor (textToTranslate : String) : String :=
  "Translate the following newsletter post from English to Latin American Spanish:\n\n"
    ++ textToTranslate

/-- Result of one `translatePost` call: the returned value or thrown error, the
cache afterwards, and how many upstream requests were issued. -/
structure TransResult where
  result : Except String TranslatedFields
  cache : Cache
  upstreamCalls : Nat

/-- translator.js `translatePost`: cache-first; otherwise build the prompt,
call the injected upstream capability, read the first content block
(`response.content[0].text` throws when the block list is empty), parse the
reply, write the result into the cache and return it.  A rejected upstream
call propagates as an error before the cache write. -/
def translatePost (upstream : String → Except String (List String)) (cache : Cache)
    (postId title subtitle content : String) : TransResult :=
  match cache.lookup postId with
  | some v => ⟨Except.ok v, cache, 0⟩
  | none =>
    match upstream (promptFor (buildText title subtitle content)) with
    | Except.error e => ⟨Except.error e, cache, 1⟩
    | Except.ok [] =>
      ⟨Except.error "TypeError: cannot read text of undefined", cache, 1⟩
    | Except.ok (t :: _) =>
      let result := parseReply t title subtitle
      ⟨Except.ok result, (postId, result) :: cache, 1⟩

/-! ## Helper lemmas about the parse loop and the cache -/

/-- Once `pastHeaders` is set, the scan appends every remaining line verbatim. -/
theorem parseScan_past (ls : List (List Char)) :
    ∀ (tt ts : List Char) (acc : List (List Char)),
      parseScan ls tt ts acc true = (tt, ts, acc ++ ls) := by
  induction ls with
  | nil => intro tt ts acc; simp [parseScan]
  | cons l rest ih =>
    intro tt ts acc
    simp [parseScan, ih]

/-- A line is trimmed to nothing exactly when it is all whitespace. -/
theorem trimChars_isEmpty_iff (l : List Char) :
    (trimChars l).isEmpty = true ↔ ∀ x ∈ l, isJsWs x = true := by
  simp only [trimChars, List.isEmpty_iff, List.reverse_eq_nil_iff,
    List.dropWhile_eq_nil_iff, List.mem_reverse]
  constructor
  · intro h x hx
    rcases List.mem_append.1 ((List.takeWhile_append_dropWhile isJsWs l) ▸ hx) with
      h1 | h2
    · exact List.mem_takeWhile_imp h1
    · exact h x h2
  · intro h x hx
    exact h x ((List.dropWhile_sublist isJsWs).subset hx)

/-- With no recognizable header line, the scan leaves the headers empty and
accumulates everything after the leading blank lines. -/
theorem parseScan_noheaders (ls : List (List Char))
    (h : ∀ l ∈ ls, ['#', ' '].isPrefixOf l = false ∧
        ['#', '#', '#', ' '].isPrefixOf l = false) :
    parseScan ls [] [] [] false =
      ([], [], ls.dropWhile fun l => (trimChars l).isEmpty) := by
  induction ls with
  | nil => simp [parseScan]
  | cons l rest ih =>
    obtain ⟨h1, h2⟩ := h l (List.mem_cons_self l rest)
    by_cases hw : (trimChars l).isEmpty = true
    · simp [parseScan, h1, h2, hw, ih fun x hx => h x (List.mem_cons_of_mem l hx)]
    · simp only [Bool.not_eq_true] at hw
      simp [parseScan, h1, h2, hw, parseScan_past]

/-- `splitNl` never returns the empty list. -/
theorem splitNl_ne_nil (cs : List Char) : splitNl cs ≠ [] := by
  cases cs with
  | nil => simp [splitNl]
  | cons c rest =>
    simp only [splitNl]
    split
    · simp
    · cases h : splitNl rest <;> simp

/-- Splitting on newlines and rejoining with newlines is the identity. -/
theorem joinNl_splitNl (cs : List Char) : joinNl (splitNl cs) = cs := by
  induction cs with
  | nil => simp [splitNl, joinNl]
  | cons c rest ih =>
    by_cases hc : c = '\n'
    · subst hc
      simp only [splitNl, if_pos rfl]
      cases h : splitNl rest with
      | nil => exact absurd h (splitNl_ne_nil rest)
      | cons t ts =>
        rw [h] at ih
        simp [joinNl, ih]
    · simp only [splitNl, if_neg hc]
      cases h : splitNl rest with
      | nil => exact absurd h (splitNl_ne_nil rest)
      | cons t ts =>
        rw [h] at ih
        cases ts with
        | nil => simpa [joinNl] using congrArg (c :: ·) ih
        | cons t' ts' => simpa [joinNl] using congrArg (c :: ·) ih

/-- Dropping an all-whitespace line followed by a newline does not change the
trimmed result. -/
theorem trimChars_cons_ws (w m : List Char) (hw : ∀ x ∈ w, isJsWs x = true) :
    trimChars (w ++ '\n' :: m) = trimChars m := by
  have hnl : isJsWs '\n' = true := by decide
  have hdrop : (w ++ '\n' :: m).dropWhile isJsWs = m.dropWhile isJsWs := by
    induction w with
    | nil => simp [List.dropWhile_cons, hnl]
    | cons a as iha =>
      have ha := hw a (List.mem_cons_self a as)
      simp only [List.cons_append, List.dropWhile_cons, ha, if_pos]
      exact iha fun x hx => hw x (List.mem_cons_of_mem a hx)
  simp [trimChars, hdrop]

/-- Skipping the leading all-whitespace lines does not change the trimmed join. -/
theorem trimChars_joinNl_dropWhile (ls : List (List Char)) :
    trimChars (joinNl (ls.dropWhile fun l => (trimChars l).isEmpty)) =
      trimChars (joinNl ls) := by
  induction ls with
  | nil => rfl
  | cons l rest ih =>
    by_cases hw : (trimChars l).isEmpty = true
    · rw [List.dropWhile_cons_of_pos (by simpa using hw)]
      cases rest with
      | nil =>
        have : trimChars l = [] := by simpa [List.isEmpty_iff] using hw
        simp only [List.dropWhile_nil, joinNl, this]
        rfl
      | cons r rs =>
        rw [ih, joinNl,
          trimChars_cons_ws l (joinNl (r :: rs)) ((trimChars_isEmpty_iff l).1 hw)]
    · rw [List.dropWhile_cons_of_neg (by simpa using hw)]

/-- A fresh cache entry is found first. -/
theorem lookup_cons_self (id : String) (v : TranslatedFields) (cache : Cache) :
    List.lookup id ((id, v) :: cache) = some v := by
  simp [List.lookup]

/-! ## Claim theorems for the translation pipeline -/

/-- Claim C1 (cache idempotence): if a cache entry for `id` exists,
`translatePost` returns it with the cache unchanged and zero upstream calls;
hence after any successful call, an identical second call returns the
byte-identical stored fields, leaves the cache unchanged, and performs no
upstream invocation. -/
theorem translatePost_cache_idempotent :
    (∀ (u : String → Except String (List String)) (cache : Cache)
        (id t s c : String) (v : TranslatedFields),
        cache.lookup id = some v →
        translatePost u cache id t s c = ⟨Except.ok v, cache, 0⟩) ∧
    (∀ (u : String → Except String (List String)) (cache : Cache)
        (id t s c : String) (v : TranslatedFields) (cache₁ : Cache) (n : Nat),
        translatePost u cache id t s c = ⟨Except.ok v, cache₁, n⟩ →
        translatePost u cache₁ id t s c = ⟨Except.ok v, cache₁, 0⟩) := by
  constructor
  · intro u cache id t s c v h
    simp [translatePost, h]
  · intro u cache id t s c v cache₁ n h
    cases hl : cache.lookup id with
    | some w =>
      simp only [translatePost, hl] at h
      injection h with h1 h2 h3
      injection h1 with h1
      subst h1
      subst h2
      simp [translatePost, hl]
    | none =>
      simp only [translatePost, hl] at h
      cases hu : u (promptFor (buildText t s c)) with
      | error e => rw [hu] at h; simp at h
      | ok blocks =>
        cases blocks with
        | nil => rw [hu] at h; simp at h
        | cons tb bs =>
          rw [hu] at h
          injection h with h1 h2 h3
          injection h1 with h1
          subst h1
          subst h2
          simp [translatePost, lookup_cons_self]

/-- Claim C1 witness: a concrete first call followed by the identical second
call, which returns the stored result with zero upstream calls. -/
theorem translatePost_cache_idempotent_witness :
    translatePost (fun _ => Except.ok ["Hola"]) [] "p" "T" "S" "C" =
      ⟨Except.ok ⟨"T", "S", "Hola"⟩, [("p", ⟨"T", "S", "Hola"⟩)], 1⟩ ∧
    translatePost (fun _ => Except.ok ["Hola"]) [("p", ⟨"T", "S", "Hola"⟩)]
        "p" "T" "S" "C" =
      ⟨Except.ok ⟨"T", "S", "Hola"⟩, [("p", ⟨"T", "S", "Hola"⟩)], 0⟩ :=
  ⟨rfl,
    translatePost_cache_idempotent.2 (fun _ => Except.ok ["Hola"]) [] "p" "T" "S" "C"
      ⟨"T", "S", "Hola"⟩ [("p", ⟨"T", "S", "Hola"⟩)] 1 rfl⟩

/-- Claim C2 (response-parse correctness): the reply
`"# Título\n### Subtítulo\n\nCuerpo"` parses to
`{title: "Título", subtitle: "Subtítulo", content: "Cuerpo"}` whatever the
fallbacks, and once `pastHeaders` is set the scan appends every subsequent
line verbatim to the body, never re-interpreting it as a header (even when it
starts with `#`). -/
theorem parseReply_headers_and_sticky_body :
    (∀ t s : String,
        parseReply "# Título\n### Subtítulo\n\nCuerpo" t s =
          ⟨"Título", "Subtítulo", "Cuerpo"⟩) ∧
    (∀ (ls : List (List Char)) (tt ts : List Char) (acc : List (List Char)),
        parseScan ls tt ts acc true = (tt, ts, acc ++ ls)) :=
  ⟨fun _ _ => rfl, fun ls tt ts acc => parseScan_past ls tt ts acc⟩

/-- Claim C3 (failure atomicity): with no cache entry for `id`, if the
upstream call rejects or returns an empty content-block list, `translatePost`
fails with an error, writes no cache entry, and a retry is exactly the same
call on the unchanged cache. -/
theorem translatePost_failure_atomic :
    ∀ (u : String → Except String (List String)) (cache : Cache) (id t s c : String),
      cache.lookup id = none →
      ((∃ e, u (promptFor (buildText t s c)) = Except.error e) ∨
        u (promptFor (buildText t s c)) = Except.ok []) →
      (∃ msg, (translatePost u cache id t s c).result = Except.error msg) ∧
      (translatePost u cache id t s c).cache = cache ∧
      translatePost u (translatePost u cache id t s c).cache id t s c =
        translatePost u cache id t s c := by
  intro u cache id t s c hl h
  rcases h with ⟨e, he⟩ | he
  · refine ⟨⟨e, ?_⟩, ?_, ?_⟩ <;> simp [translatePost, hl, he]
  · refine ⟨⟨"TypeError: cannot read text of undefined", ?_⟩, ?_, ?_⟩ <;>
      simp [translatePost, hl, he]

/-- Claim C3 witness: a concrete failing upstream call leaves the cache empty
and the retry identical. -/
theorem translatePost_failure_atomic_witness :
    (List.lookup "p" ([] : Cache) = none) ∧
    ((∃ msg, (translatePost (fun _ => Except.error "ECONNREFUSED") [] "p" "T" "S" "C").result =
        Except.error msg) ∧
      (translatePost (fun _ => Except.error "ECONNREFUSED") [] "p" "T" "S" "C").cache = [] ∧
      translatePost (fun _ => Except.error "ECONNREFUSED")
          (translatePost (fun _ => Except.error "ECONNREFUSED") [] "p" "T" "S" "C").cache
          "p" "T" "S" "C" =
        translatePost (fun _ => Except.error "ECONNREFUSED") [] "p" "T" "S" "C") :=
  ⟨rfl,
    translatePost_failure_atomic (fun _ => Except.error "ECONNREFUSED") [] "p" "T" "S" "C"
      rfl (Or.inl ⟨"ECONNREFUSED", rfl⟩)⟩

/-- Claim C6 (header fallback): when the scan captured no `# ` title the result
title is the original one, same for the subtitle; and a reply with no
recognizable header line at all parses — with no failure, the parser is total —
to the two fallbacks plus the whole reply joined back and trimmed as body. -/
theorem parseReply_header_fallback :
    (∀ reply t s : String,
        (parseScan (splitNl reply.data) [] [] [] false).1 = [] →
        (parseReply reply t s).title = t) ∧
    (∀ reply t s : String,
        (parseScan (splitNl reply.data) [] [] [] false).2.1 = [] →
        (parseReply reply t s).subtitle = s) ∧
    (∀ reply t s : String,
        (∀ l ∈ splitNl reply.data, ['#', ' '].isPrefixOf l = false ∧
            ['#', '#', '#', ' '].isPrefixOf l = false) →
        parseReply reply t s = ⟨t, s, jsTrim reply⟩) := by
  refine ⟨?_, ?_, ?_⟩
  · intro reply t s h
    simp [parseReply, h]
  · intro reply t s h
    simp [parseReply, h]
  · intro reply t s h
    have hscan := parseScan_noheaders (splitNl reply.data) h
    simp only [parseReply, hscan, List.isEmpty_nil, if_pos rfl]
    refine congrArg (TranslatedFields.mk t s) ?_
    rw [congrArg String.mk (trimChars_joinNl_dropWhile (splitNl reply.data)),
      joinNl_splitNl]
    rfl

/-- Claim C6 witness: the spec's example reply with no header lines falls back
to the source title and subtitle and keeps the whole reply as body. -/
theorem parseReply_header_fallback_witness :
    (∀ l ∈ splitNl "Solo cuerpo.".data, ['#', ' '].isPrefixOf l = false ∧
        ['#', '#', '#', ' '].isPrefixOf l = false) ∧
    parseReply "Solo cuerpo." "T" "S" = ⟨"T", "S", jsTrim "Solo cuerpo."⟩ :=
  ⟨by decide, parseReply_header_fallback.2.2 "Solo cuerpo." "T" "S" (by decide)⟩

/-! ## HTTP translate endpoint (src: server.js, `app.post("/api/translate")`) -/

/-- The JSON body of a translate request; absent fields are `none`. -/
structure TranslateRequest where
  postId : Option String
  title : Option String
  subtitle : Option String
  content : Option String

/-- JavaScript truthiness for a possibly-absent string field:
`undefined` and `""` are falsy. -/
def jsTruthy : Option String → Bool
  | none => false
  | some s => s ≠ ""

/-- The three response shapes of the translate endpoint: a 200 JSON body
(`{postId, cached, ...result}`), a 400 validation error, and a 500 upstream
failure (`{error, detail}`). -/
inductive ApiResponse where
  | ok (postId : String) (cached : Bool) (fields : TranslatedFields)
  | badRequest (error : String)
  | serverError (error detail : String)

/-- server.js `/api/translate` handler: reject when `postId` is falsy, reject
when both `content` and `title` are falsy, otherwise run `translatePost` and
answer 200 on success or 500 on a thrown error.  Result triple: the response,
the cache afterwards, and the number of upstream calls made. -/
def handleTranslate (upstream : String → Except String (List String)) (cache : Cache)
    (req : TranslateRequest) : ApiResponse × Cache × Nat :=
  if !jsTruthy req.postId then
    (ApiResponse.badRequest "postId is required", cache, 0)
  else if !jsTruthy req.content && !jsTruthy req.title then
    (ApiResponse.badRequest "At least title or content is required", cache, 0)
  else
    let pid := req.postId.getD ""
    let r := translatePost upstream cache pid (req.title.getD "")
      (req.subtitle.getD "") (req.content.getD "")
    match r.result with
    | Except.ok v => (ApiResponse.ok pid (isCached r.cache pid) v, r.cache, r.upstreamCalls)
    | Except.error e => (ApiResponse.serverError "Translation failed" e, r.cache, r.upstreamCalls)

/-- Claim C7 (request validation): a request with a falsy `postId`, or with
both `title` and `content` falsy, is answered with a 400 error; the cache is
untouched and no upstream call is made. -/
theorem handleTranslate_validation :
    ∀ (u : String → Except String (List String)) (cache : Cache) (req : TranslateRequest),
      (jsTruthy req.postId = false ∨
        (jsTruthy req.title = false ∧ jsTruthy req.content = false)) →
      ∃ msg, handleTranslate u cache req = (ApiResponse.badRequest msg, cache, 0) := by
  intro u cache req h
  rcases h with h | ⟨ht, hc⟩
  · exact ⟨"postId is required", by simp [handleTranslate, h]⟩
  · by_cases hp : jsTruthy req.postId = false
    · exact ⟨"postId is required", by simp [handleTranslate, hp]⟩
    · refine ⟨"At least title or content is required", ?_⟩
      simp only [Bool.not_eq_false] at hp
      simp [handleTranslate, hp, ht, hc]

/-- Claim C7 witness: a concrete request without a `postId` is rejected with a
400 response, an unchanged cache and zero upstream calls. -/
theorem handleTranslate_validation_witness :
    jsTruthy (TranslateRequest.mk none (some "T") none (some "C")).postId = false ∧
    ∃ msg, handleTranslate (fun _ => Except.ok ["Hola"]) []
        (TranslateRequest.mk none (some "T") none (some "C")) =
      (ApiResponse.badRequest msg, [], 0) :=
  ⟨rfl, handleTranslate_validation (fun _ => Except.ok ["Hola"]) []
    (TranslateRequest.mk none (some "T") none (some "C")) (Or.inl rfl)⟩

/-! ## ContentRenderer (src: server.js `formatContentToHtml`/`inlineFormat`,
widget.js `formatTranslatedContent`/`processInline`) -/

/-- JavaScript line terminators, which regex `.` does not match. -/
def isLineTerm (c : Char) : Bool :=
  c = '\n' || c = '\r' || c = '\u2028' || c = '\u2029'

/-- Lazy search for the bold closer: the shortest non-empty run of
non-line-terminator characters followed by `**`, as matched by `(.+?)\*\*`.
Returns the captured run and the text after the closer. -/
def findClose : List Char → Option (List Char × List Char)
  | [] => none
  | c :: rest =>
    if isLineTerm c then none
    else
      match rest with
      | '*' :: '*' :: tail => some ([c], tail)
      | _ =>
        match findClose rest with
        | some (cap, tail) => some (c :: cap, tail)
        | none => none

/-- Global replacement of `/\*\*(.+?)\*\*/g` by `<strong>$1</strong>`: scan
left to right, replacing each match and resuming after it.  Fuel-driven; the
input length is always enough fuel. -/
def boldGo : Nat → List Char → List Char
  | 0, cs => cs
  | _ + 1, [] => []
  | fuel + 1, '*' :: '*' :: rest =>
    match findClose rest with
    | some (cap, tail) => "<strong>".data ++ cap ++ "</strong>".data ++ boldGo fuel tail
    | none => '*' :: '*' :: boldGo fuel rest
  | fuel + 1, c :: rest => c :: boldGo fuel rest

/-- `text.replace(/\*\*(.+?)\*\*\/g, "<strong>$1</strong>")`. -/
def inlineBold (cs : List Char) : List Char := boldGo cs.length cs

/-- One attempted match of `\[([^\]]+)\]\(([^)]+)\)` at a `[`: the greedy
non-`]` run must be non-empty and followed by `](`, and the greedy non-`)` run
must be non-empty and followed by `)`.  Returns (label, url, rest). -/
def parseLink (cs : List Char) : Option (List Char × List Char × List Char) :=
  let label := cs.takeWhile fun c => c ≠ ']'
  if label.isEmpty then none
  else
    match cs.dropWhile fun c => c ≠ ']' with
    | ']' :: '(' :: cs₂ =>
      let url := cs₂.takeWhile fun c => c ≠ ')'
      if url.isEmpty then none
      else
        match cs₂.dropWhile fun c => c ≠ ')' with
        | ')' :: tail => some (label, url, tail)
        | _ => none
    | _ => none

/-- Global replacement of the link pattern by `<a href="$2">$1</a>`. -/
def linkGo : Nat → List Char → List Char
  | 0, cs => cs
  | _ + 1, [] => []
  | fuel + 1, '[' :: rest =>
    match parseLink rest with
    | some (label, url, tail) =>
      "<a href=\"".data ++ url ++ "\">".data ++ label ++ "</a>".data ++ linkGo fuel tail
    | none => '[' :: linkGo fuel rest
  | fuel + 1, c :: rest => c :: linkGo fuel rest

/-- `text.replace(/\[([^\]]+)\]\(([^)]+)\)/g, ...)`. -/
def inlineLinks (cs : List Char) : List Char := linkGo cs.length cs

/-- server.js `inlineFormat`: bold first, then links. -/
def inlineFormat (s : String) : String := ⟨inlineLinks (inlineBold s.data)⟩

/-- widget.js `processInline`: textually the same body as the server's
`inlineFormat` — bold first, then links, and no italic rule. -/
def processInline (s : String) : String := ⟨inlineLinks (inlineBold s.data)⟩

/-- `html.replace(/\n/g, "<br>")`. -/
def brify (s : String) : String :=
  ⟨s.data.flatMap fun c => if c = '\n' then "<br>".data else [c]⟩

/-- JavaScript `text.includes(sub)`. -/
def hasSub : List Char → List Char → Bool
  | [], sub => sub.isEmpty
  | c :: rest, sub => List.isPrefixOf sub (c :: rest) || hasSub rest sub

/-- Splitting on `/\n\n+/`: a run of two or more newlines ends the current
block and is consumed entirely.  Fuel-driven scan with an accumulator held in
reverse. -/
def splitBlocksGo : Nat → List Char → List Char → List (List Char)
  | 0, cur, cs => [cur.reverse ++ cs]
  | _ + 1, cur, [] => [cur.reverse]
  | fuel + 1, cur, '\n' :: '\n' :: rest =>
    cur.reverse :: splitBlocksGo fuel [] (rest.dropWhile fun c => c = '\n')
  | fuel + 1, cur, c :: rest => splitBlocksGo fuel (c :: cur) rest

/-- `text.split(/\n\n+/)`. -/
def splitBlocks (cs : List Char) : List (List Char) := splitBlocksGo cs.length [] cs

/-- The per-block mapping of server.js `formatContentToHtml` (lines 158-166):
trim, empty blocks become `""`, `### ` becomes an `<h3>` with the prefix
stripped, `## ` an `<h2>`, anything else a `<p>` with inner newlines turned
into `<br>`. -/
def serverBlock (b : List Char) : String :=
  let html := trimChars b
  if html.isEmpty then ""
  else if ['#', '#', '#', ' '].isPrefixOf html then
    "<h3>" ++ inlineFormat ⟨html.drop 4⟩ ++ "</h3>"
  else if ['#', '#', ' '].isPrefixOf html then
    "<h2>" ++ inlineFormat ⟨html.drop 3⟩ ++ "</h2>"
  else
    "<p>" ++ brify (inlineFormat ⟨html⟩) ++ "</p>"

/-- The per-block mapping of widget.js `formatTranslatedContent`
(lines 232-241): as the server's, but with no `### ` branch at all. -/
def widgetBlock (b : List Char) : String :=
  let html := trimChars b
  if html.isEmpty then ""
  else if ['#', '#', ' '].isPrefixOf html then
    "<h2>" ++ processInline ⟨html.drop 3⟩ ++ "</h2>"
  else
    "<p>" ++ brify (processInline ⟨html⟩) ++ "</p>"

/-- server.js `formatContentToHtml`: pass through pre-rendered HTML, else
split into blocks, map each block and join with newlines. -/
def formatContentToHtml (text : String) : String :=
  if text = "" then ""
  else if hasSub text.data "<p>".data || hasSub text.data "<div>".data then text
  else String.intercalate "\n" ((splitBlocks text.data).map serverBlock)

/-- widget.js `formatTranslatedContent`: same skeleton as the server renderer
but with the widget's per-block mapping. -/
def formatTranslatedContent (text : String) : String :=
  if text = "" then ""
  else if hasSub text.data "<p>".data || hasSub text.data "<div>".data then text
  else String.intercalate "\n" ((splitBlocks text.data).map widgetBlock)

/-- The widget's per-block mapping agrees with the server's whenever the
trimmed block does not start with `### ` (the branch the widget lacks). -/
theorem serverBlock_eq_widgetBlock (b : List Char)
    (h : ['#', '#', '#', ' '].isPrefixOf (trimChars b) = false) :
    serverBlock b = widgetBlock b := by
  simp [serverBlock, widgetBlock, h, inlineFormat, processInline]

/-- Claim C4 counterexample: the two renderers are not the same function — on
the single block `"### Hola"` the server yields an `<h3>` but the widget a
paragraph — and the widget maps `*text*` to no italic at all. -/
theorem renderer_equivalence_counterexample :
    formatContentToHtml "### Hola" ≠ formatTranslatedContent "### Hola" ∧
    formatTranslatedContent "*hola*" = "<p>*hola*</p>" := by
  constructor
  · decide
  · decide

/-- Claim C4 (amended): the widget's inline processing is identical to the
server's (bold, then links; no italic rule), the two renderers produce the
same HTML on every input whose blocks never trim to a `### ` prefix, and on a
`### `-prefixed block the server emits a stripped `<h3>` while the widget
emits a verbatim paragraph. -/
theorem renderer_equivalence_amended :
    (∀ s : String, processInline s = inlineFormat s) ∧
    (∀ text : String,
        (∀ b ∈ splitBlocks text.data,
            ['#', '#', '#', ' '].isPrefixOf (trimChars b) = false) →
        formatContentToHtml text = formatTranslatedContent text) ∧
    (∀ b : List Char, ['#', '#', '#', ' '].isPrefixOf (trimChars b) = true →
        serverBlock b = "<h3>" ++ inlineFormat ⟨(trimChars b).drop 4⟩ ++ "</h3>" ∧
        widgetBlock b = "<p>" ++ brify (processInline ⟨trimChars b⟩) ++ "</p>") := by
  refine ⟨fun _ => rfl, ?_, ?_⟩
  · intro text h
    unfold formatContentToHtml formatTranslatedContent
    by_cases h0 : text = ""
    · simp [h0]
    · by_cases h1 : (hasSub text.data "<p>".data || hasSub text.data "<div>".data) = true
      · simp [h0, h1]
      · simp only [Bool.not_eq_true] at h1
        simp only [h0, h1, if_false, Bool.false_eq_true]
        refine congrArg (String.intercalate "\n") (List.map_congr_left ?_)
        intro b hb
        exact serverBlock_eq_widgetBlock b (h b hb)
  · intro b h
    obtain ⟨t, ht⟩ := (List.isPrefixOf_iff_prefix.1 h)
    constructor
    · rw [serverBlock, ← ht]
      simp
    · rw [widgetBlock, ← ht]
      simp [List.isPrefixOf]

/-- Claim C4 witness: the amended equivalence at a concrete `### `-free input,
and the concrete divergent `<h3>` rendering on a `### ` block. -/
theorem renderer_equivalence_amended_witness :
    (∀ b ∈ splitBlocks "## Hola\n\n**negrita** y [liga](https://x.com)".data,
        ['#', '#', '#', ' '].isPrefixOf (trimChars b) = false) ∧
    formatContentToHtml "## Hola\n\n**negrita** y [liga](https://x.com)" =
      formatTranslatedContent "## Hola\n\n**negrita** y [liga](https://x.com)" ∧
    ['#', '#', '#', ' '].isPrefixOf (trimChars "### Hola".data) = true ∧
    serverBlock "### Hola".data =
      "<h3>" ++ inlineFormat ⟨(trimChars "### Hola".data).drop 4⟩ ++ "</h3>" :=
  ⟨by decide,
    renderer_equivalence_amended.2.1 "## Hola\n\n**negrita** y [liga](https://x.com)"
      (by decide),
    by decide,
    (renderer_equivalence_amended.2.2 "### Hola".data (by decide)).1⟩

/-- Claim C8 (rendering vector): the server renderer on
`"**hola** mundo [link](https://x.com)"` produces exactly the expected
paragraph with bold applied before the link substitution. -/
theorem formatContentToHtml_rendering_vector :
    formatContentToHtml "**hola** mundo [link](https://x.com)" =
      "<p><strong>hola</strong> mundo <a href=\"https://x.com\">link</a></p>" := by
  decide

/-! ## PresentationController (src: widget.js) -/

/-- Polling interval of the discovery loop (`setTimeout(waitForContent, 200)`). -/
def pollIntervalMs : Nat := 200

/-- Attempt budget of the discovery loop (`var maxAttempts = 50`). -/
def maxAttempts : Nat := 50

/-- Minimum trimmed text length required of the content element
(`contentEl.textContent.trim().length > 50`). -/
def minContentLen : Nat := 50

/-- What the discovery loop ends with: `initialized` means `init()` ran;
`timedOut` means `init` was never called — nothing is mounted, no DOM is
touched, and only the `console.warn` diagnostic is emitted. -/
inductive WaitOutcome where
  | initialized
  | timedOut
deriving DecidableEq

/-- The DOM is abstracted as an oracle `q`: at attempt `k`, `q k` is the text
content of the first matching content element, or `none` when no selector
matches.  The guard of widget.js line 51. -/
def contentReady (q : Nat → Option String) (k : Nat) : Bool :=
  match q k with
  | none => false
  | some txt => decide (minContentLen < (trimChars txt.data).length)

/-- widget.js `waitForContent` (lines 44-58): pre-increment the attempt
counter, initialize when the content is ready, retry after 200ms while fewer
than `maxAttempts` attempts were made, otherwise give up with a diagnostic.
The structural fuel argument (started at `maxAttempts`) only bounds the
recursion; the loop's own `attempts < maxAttempts` guard is what stops it. -/
def waitGo (q : Nat → Option String) : Nat → Nat → WaitOutcome × Nat
  | 0, attempts => (WaitOutcome.timedOut, attempts)
  | fuel + 1, attempts =>
    let a := attempts + 1
    if contentReady q a then (WaitOutcome.initialized, a)
    else if a < maxAttempts then waitGo q fuel a
    else (WaitOutcome.timedOut, a)

/-- The discovery loop as started by the widget: attempt counter at 0. -/
def waitForContent (q : Nat → Option String) : WaitOutcome × Nat :=
  waitGo q maxAttempts 0

/-- The attempt counter never exceeds the starting value plus the fuel. -/
theorem waitGo_attempts_le (q : Nat → Option String) :
    ∀ (fuel attempts : Nat), (waitGo q fuel attempts).2 ≤ attempts + fuel := by
  intro fuel
  induction fuel with
  | zero => intro a; simp [waitGo]
  | succ fuel ih =>
    intro a
    simp only [waitGo]
    by_cases h : contentReady q (a + 1) = true
    · simp [h]
    · simp only [h, Bool.false_eq_true, if_false]
      by_cases h2 : a + 1 < maxAttempts
      · simp only [h2, if_pos]
        calc (waitGo q fuel (a + 1)).2 ≤ (a + 1) + fuel := ih (a + 1)
          _ = a + (fuel + 1) := by omega
      · simp [h2]

/-- If the content is never ready within the budget, the loop times out. -/
theorem waitGo_timeout (q : Nat → Option String) :
    ∀ (fuel attempts : Nat), attempts + fuel ≤ maxAttempts →
      (∀ k, attempts < k → k ≤ maxAttempts → contentReady q k = false) →
      (waitGo q fuel attempts).1 = WaitOutcome.timedOut := by
  intro fuel
  induction fuel with
  | zero => intro a _ _; simp [waitGo]
  | succ fuel ih =>
    intro a hb h
    have hr : contentReady q (a + 1) = false := h (a + 1) (by omega) (by omega)
    simp only [waitGo, hr, Bool.false_eq_true, if_false]
    by_cases h2 : a + 1 < maxAttempts
    · simp only [h2, if_pos]
      exact ih (a + 1) (by omega) fun k hk1 hk2 => h k (by omega) hk2
    · simp [h2]

/-- Claim C9 (bounded discovery): the widget polls at a fixed 200ms interval
with a budget of 50 attempts, the attempt counter never exceeds 50 (the loop
always terminates), and whenever the content element is never simultaneously
present and longer than the threshold during those attempts the loop ends in
`timedOut` — `init` is never called, so nothing is mounted and no DOM is
mutated, only the console diagnostic runs. -/
theorem waitForContent_bounded_discovery :
    pollIntervalMs = 200 ∧ maxAttempts = 50 ∧
    (∀ q : Nat → Option String, (waitForContent q).2 ≤ 50) ∧
    (∀ q : Nat → Option String,
        (∀ k, 1 ≤ k → k ≤ maxAttempts → contentReady q k = false) →
        (waitForContent q).1 = WaitOutcome.timedOut) := by
  refine ⟨rfl, rfl, fun q => ?_, fun q h => ?_⟩
  · simpa using waitGo_attempts_le q maxAttempts 0
  · exact waitGo_timeout q maxAttempts 0 (by simp) fun k hk1 hk2 => h k (by omega) hk2

/-- Claim C9 witness: with no content element ever present, discovery times
out (and the attempt bound holds for that oracle). -/
theorem waitForContent_bounded_discovery_witness :
    (∀ k, 1 ≤ k → k ≤ maxAttempts → contentReady (fun _ => none) k = false) ∧
    (waitForContent (fun _ => none)).1 = WaitOutcome.timedOut ∧
    (waitForContent (fun _ => none)).2 ≤ 50 :=
  ⟨fun _ _ _ => rfl,
    waitForContent_bounded_discovery.2.2.2 (fun _ => none) (fun _ _ _ => rfl),
    waitForContent_bounded_discovery.2.2.1 (fun _ => none)⟩

/-- The two languages of the toggle. -/
inductive Lang where
  | en
  | es
deriving DecidableEq

/-- What the swapped-in DOM content currently shows. -/
inductive ShownContent where
  | original
  | translated
deriving DecidableEq

/-- Client controller state: `currentLang` (widget.js `currentLang`), what the
title/subtitle/content elements display, and whether a translate fetch promise
chain is outstanding. -/
structure WidgetState where
  currentLang : Lang
  shown : ShownContent
  pending : Bool
deriving DecidableEq

/-- Initial state after `init()`: English shown, nothing in flight. -/
def initWidget : WidgetState := ⟨Lang.en, ShownContent.original, false⟩

/-- widget.js `switchLang` (lines 180-211), with the asynchronous fetch
continuations split into separate events: a click on the current language is a
no-op; a click on `en` swaps the captured original content back in; a click on
`es` starts the translate fetch. -/
def switchLang (s : WidgetState) (lang : Lang) : WidgetState :=
  if lang = s.currentLang then s
  else
    match lang with
    | Lang.en => { s with currentLang := Lang.en, shown := ShownContent.original }
    | Lang.es => { s with currentLang := Lang.es, pending := true }

/-- Events of one widget instance: user clicks and the two continuations of
the translate fetch. -/
inductive WidgetEvent where
  | click (lang : Lang)
  | fetchSuccess
  | fetchFailure

/-- One controller step per event.  The `.then` handler (widget.js lines
195-201) calls `swapContent` with the translated fields unconditionally — it
never consults `currentLang`; the `.catch` handler resets the toggle to
English without touching the content. -/
def widgetStep (s : WidgetState) : WidgetEvent → WidgetState
  | WidgetEvent.click lang => switchLang s lang
  | WidgetEvent.fetchSuccess =>
    if s.pending then { s with pending := false, shown := ShownContent.translated } else s
  | WidgetEvent.fetchFailure =>
    if s.pending then { s with pending := false, currentLang := Lang.en } else s

/-- Claim C5 (code behaviour at the failing input): click Español, click
English before the response arrives, then let the response arrive — the
controller swaps the translated content into the DOM even though it is back in
the Source state (`currentLang = en`), because the fetch continuation applies
`swapContent` without checking the current state. -/
theorem widget_stale_response_rendered_in_source :
    List.foldl widgetStep initWidget
      [WidgetEvent.click Lang.es, WidgetEvent.click Lang.en, WidgetEvent.fetchSuccess] =
    ⟨Lang.en, ShownContent.translated, false⟩ := by
  decide

/-! ## Reader page template (src: template.js, `renderPage` / `escHtml`) -/

/-- One global single-character replacement pass,
`str.replace(/c/g, r)` for a single character `c`. -/
def replAll (cs : List Char) (c : Char) (r : List Char) : List Char :=
  cs.flatMap fun x => if x = c then r else [x]

/-- template.js `escHtml`: `String(str)` (identity on strings) followed by the
four global replacements, `&` first, then `<`, `>`, `"`. -/
def escHtml (s : String) : String :=
  ⟨replAll (replAll (replAll (replAll s.data '&' "&amp;".data)
    '<' "&lt;".data) '>' "&gt;".data) '"' "&quot;".data⟩

/-- template.js `escAttr`: an alias for `escHtml`. -/
def escAttr (s : String) : String := escHtml s

/-- The four escapes as one character-wise substitution (the order of the
sequential passes makes them equivalent to this joint map). -/
def escChar (c : Char) : List Char :=
  if c = '&' then "&amp;".data
  else if c = '<' then "&lt;".data
  else if c = '>' then "&gt;".data
  else if c = '"' then "&quot;".data
  else [c]

/-- Lowercase hex digit. -/
def hexDigit (n : Nat) : Char := "0123456789abcdef".data.getD n '0'

/-- The escape of one character under JavaScript `JSON.stringify` for strings:
quote and backslash get a backslash escape, the named control characters get
their two-character escapes, other control characters get `\u００xx` (written
here with ASCII digits), anything else is kept — in particular `<`, `>` and
`"`-free text stays raw. -/
def jsonEscChar (c : Char) : List Char :=
  if c = '"' then ['\\', '"']
  else if c = '\\' then ['\\', '\\']
  else if c = '\x08' then ['\\', 'b']
  else if c = '\t' then ['\\', 't']
  else if c = '\n' then ['\\', 'n']
  else if c = '\x0c' then ['\\', 'f']
  else if c = '\r' then ['\\', 'r']
  else if c.toNat < 32 then
    ['\\', 'u', '0', '0', hexDigit (c.toNat / 16), hexDigit (c.toNat % 16)]
  else [c]

/-- JavaScript `JSON.stringify` on a string value. -/
def jsonStringify (s : String) : String :=
  "\"" ++ ⟨s.data.flatMap jsonEscChar⟩ ++ "\""

/-- The metadata record assembled by reader.js (`post.meta`). -/
structure PostMeta where
  authors : String
  datePublished : String
  description : String

/-- The source post as consumed by `renderPage`. -/
structure Post where
  title : String
  subtitle : String
  contentHtml : String
  originalUrl : String
  meta : PostMeta

/-- The translated fields as consumed by `renderPage` (the route attaches
`contentHtml := formatContentToHtml content` before rendering). -/
structure Translated where
  title : String
  subtitle : String
  contentHtml : String

/-- `const date = post.meta.datePublished ? toLocaleDateString(...) : ""`,
with the locale formatter injected as `fmtDate`. -/
def dateOf (fmtDate : String → String) (post : Post) : String :=
  if post.meta.datePublished = "" then "" else fmtDate post.meta.datePublished

/-- Static template text number 0 of the reader page. -/
def tplChunk0 : String :=
  "<!DOCTYPE html>\n<html lang=\"es\">\n<head>\n  <meta charset=\"UTF-8\">\n  <meta name=\"viewport\" content=\"width=device-width, initial-scale=1.0\">\n  <title>"

/-- Static template text number 1 of the reader page. -/
def tplChunk1 : String :=
  " â€” ConteNIDO</title>\n  <meta name=\"description\" content=\""

/-- Static template text number 2 of the reader page. -/
def tplChunk2 : String :=
  "\">\n  <meta property=\"og:title\" content=\""

/-- Static template text number 3 of the reader page. -/
def tplChunk3 : String :=
  "\">\n  <meta property=\"og:description\" content=\""

/-- Static template text number 4 of the reader page. -/
def tplChunk4 : String :=
  "\">\n  <meta property=\"og:type\" content=\"article\">\n  <link rel=\"preconnect\" href=\"https://fonts.googleapis.com\">\n  <link rel=\"preconnect\" href=\"https://fonts.gstatic.com\" crossorigin>\n  <link href=\"https://fonts.googleapis.com/css2?family=Newsreader:ital,opsz,wght@0,6..72,400;0,6..72,600;1,6..72,400&display=swap\" rel=\"stylesheet\">\n  <style>\n    * \x7b margin: 0; padding: 0; box-sizing: border-box; \x7d\n    body \x7b\n      font-family: \x27Newsreader\x27, Georgia, serif;\n      background: #ffffff;\n      color: #1a1a1a;\n      line-height: 1.7;\n      -webkit-font-smoothing: antialiased;\n    \x7d\n    .container \x7b\n      max-width: 680px;\n      margin: 0 auto;\n      padding: 40px 20px 80px;\n    \x7d\n    /* Header */\n    .pub-header \x7b\n      text-align: center;\n      padding: 30px 0 20px;\n      border-bottom: 1px solid #e8e4df;\n      margin-bottom: 32px;\n    \x7d\n    .pub-header a \x7b\n      text-decoration: none;\n      color: inherit;\n    \x7d\n    .pub-name \x7b\n      font-size: 24px;\n      font-weight: 600;\n      color: #1a1a1a;\n      letter-spacing: -0.01em;\n    \x7d\n    .pub-tagline \x7b\n      font-size: 15px;\n      color: #7a756f;\n      margin-top: 4px;\n      font-family: -apple-system, BlinkMacSystemFont, \"Segoe UI\", Roboto, sans-serif;\n    \x7d\n    /* Toggle */\n    .lang-toggle \x7b\n      display: flex;\n      align-items: center;\n      justify-content: center;\n      gap: 0;\n      margin: 0 auto 1.5rem;\n      width: fit-content;\n      background: #f5f1ec;\n      border-radius: 100px;\n      padding: 4px;\n      font-family: -apple-system, BlinkMacSystemFont, \"Segoe UI\", Roboto, sans-serif;\n      font-size: 14px;\n      user-select: none;\n    \x7d\n    .lang-toggle button \x7b\n      border: none;\n      background: transparent;\n      padding: 8px 20px;\n      border-radius: 100px;\n      cursor: pointer;\n      font-size: 14px;\n      font-weight: 500;\n      color: #6b6560;\n      transition: all 0.25s ease;\n      line-height: 1;\n    \x7d\n    .lang-toggle button:hover \x7b color: #3d3832; \x7d\n    .lang-toggle button.active \x7b\n      background: #c4956a;\n      color: #ffffff;\n      box-shadow: 0 1px 3px rgba(0,0,0,0.1);\n    \x7d\n    /* Post */\n    h1.post-title \x7b\n      font-size: 36px;\n      font-weight: 600;\n      line-height: 1.2;\n      margin-bottom: 12px;\n      letter-spacing: -0.02em;\n    \x7d\n    h3.subtitle \x7b\n      font-size: 20px;\n      font-weight: 400;\n      color: #6b6560;\n      line-height: 1.4;\n      margin-bottom: 24px;\n    \x7d\n    .post-meta \x7b\n      display: flex;\n      align-items: center;\n      gap: 12px;\n      font-family: -apple-system, BlinkMacSystemFont, \"Segoe UI\", Roboto, sans-serif;\n      font-size: 14px;\n      color: #7a756f;\n      margin-bottom: 32px;\n      padding-bottom: 24px;\n      border-bottom: 1px solid #e8e4df;\n    \x7d\n    .post-meta .authors \x7b font-weight: 600; color: #1a1a1a; \x7d\n    /* Body */\n    .post-body p \x7b\n      font-size: 18px;\n      margin-bottom: 1.4em;\n    \x7d\n    .post-body h2, .post-body h3 \x7b\n      font-size: 26px;\n      font-weight: 600;\n      margin: 2em 0 0.6em;\n      letter-spacing: -0.01em;\n    \x7d\n    .post-body h3 \x7b font-size: 22px; \x7d\n    .post-body strong \x7b font-weight: 600; \x7d\n    .post-body a \x7b\n      color: #c4956a;\n      text-decoration: underline;\n      text-underline-offset: 2px;\n    \x7d\n    .post-body a:hover \x7b color: #a87a52; \x7d\n    .post-body ul, .post-body ol \x7b\n      margin-bottom: 1.4em;\n      padding-left: 1.5em;\n    \x7d\n    .post-body li \x7b\n      font-size: 18px;\n      margin-bottom: 0.5em;\n    \x7d\n    .post-body blockquote \x7b\n      border-left: 3px solid #c4956a;\n      padding-left: 20px;\n      margin: 1.5em 0;\n      color: #5a5550;\n      font-style: italic;\n    \x7d\n    /* Fade */\n    .fade-target \x7b\n      transition: opacity 0.3s ease;\n    \x7d\n    .fade-target.fading \x7b opacity: 0; \x7d\n    /* Footer */\n    .post-footer \x7b\n      margin-top: 48px;\n      padding-top: 24px;\n      border-top: 1px solid #e8e4df;\n      text-align: center;\n      font-family: -apple-system, BlinkMacSystemFont, \"Segoe UI\", Roboto, sans-serif;\n      font-size: 13px;\n      color: #999;\n    \x7d\n    .post-footer a \x7b color: #c4956a; \x7d\n    .original-link \x7b\n      display: inline-block;\n      margin-top: 8px;\n      font-family: -apple-system, BlinkMacSystemFont, \"Segoe UI\", Roboto, sans-serif;\n      font-size: 13px;\n      color: #c4956a;\n      text-decoration: none;\n    \x7d\n    .original-link:hover \x7b text-decoration: underline; \x7d\n    @media (max-width: 600px) \x7b\n      h1.post-title \x7b font-size: 28px; \x7d\n      .post-body p, .post-body li \x7b font-size: 17px; \x7d\n    \x7d\n  </style>\n</head>\n<body>\n  <div class=\"container\">\n    <div class=\"pub-header\">\n      <a href=\""

/-- Static template text number 5 of the reader page. -/
def tplChunk5 : String :=
  "\">\n        <div class=\"pub-name\">ConteNIDO</div>\n        <div class=\"pub-tagline\">VC, AI &amp; Tech in Latin America</div>\n      </a>\n    </div>\n\n    <div class=\"lang-toggle\">\n      <button id=\"btn-en\" data-lang=\"en\">English</button>\n      <button id=\"btn-es\" data-lang=\"es\" class=\"active\">Español</button>\n    </div>\n\n    <h1 class=\"post-title fade-target\" id=\"title\">"

/-- Static template text number 6 of the reader page. -/
def tplChunk6 : String :=
  "</h1>\n    <h3 class=\"subtitle fade-target\" id=\"subtitle\">"

/-- Static template text number 7 of the reader page. -/
def tplChunk7 : String :=
  "</h3>\n\n    <div class=\"post-meta\">\n      <div>\n        <div class=\"authors\">"

/-- Static template text number 8 of the reader page. -/
def tplChunk8 : String :=
  "</div>\n        <div>"

/-- Static template text number 9 of the reader page. -/
def tplChunk9 : String :=
  "</div>\n      </div>\n    </div>\n\n    <div class=\"post-body fade-target\" id=\"content\">"

/-- Static template text number 10 of the reader page. -/
def tplChunk10 : String :=
  "</div>\n\n    <div class=\"post-footer\">\n      <a href=\""

/-- Static template text number 11 of the reader page. -/
def tplChunk11 : String :=
  "\">Leer el original en Substack &rarr;</a>\n      <br>\n      <span>Traducido por Nest Translator</span>\n    </div>\n  </div>\n\n  <script>\n    var en = \x7b\n      title: "

/-- Static template text number 12 of the reader page. -/
def tplChunk12 : String :=
  ",\n      subtitle: "

/-- Static template text number 13 of the reader page. -/
def tplChunk13 : String :=
  ",\n      content: "

/-- Static template text number 14 of the reader page. -/
def tplChunk14 : String :=
  "\n    \x7d;\n    var es = \x7b\n      title: "

/-- Static template text number 15 of the reader page. -/
def tplChunk15 : String :=
  ",\n      subtitle: "

/-- Static template text number 16 of the reader page. -/
def tplChunk16 : String :=
  ",\n      content: "

/-- Static template text number 17 of the reader page. -/
def tplChunk17 : String :=
  "\n    \x7d;\n    var current = \"es\";\n    var titleEl = document.getElementById(\"title\");\n    var subtitleEl = document.getElementById(\"subtitle\");\n    var contentEl = document.getElementById(\"content\");\n    var btnEn = document.getElementById(\"btn-en\");\n    var btnEs = document.getElementById(\"btn-es\");\n\n    function swap(lang) \x7b\n      if (lang === current) return;\n      current = lang;\n      btnEn.classList.toggle(\"active\", lang === \"en\");\n      btnEs.classList.toggle(\"active\", lang === \"es\");\n      var data = lang === \"en\" ? en : es;\n      var els = [titleEl, subtitleEl, contentEl];\n      els.forEach(function(el) \x7b el.classList.add(\"fading\"); \x7d);\n      setTimeout(function() \x7b\n        titleEl.innerHTML = data.title;\n        subtitleEl.innerHTML = data.subtitle;\n        contentEl.innerHTML = data.content;\n        els.forEach(function(el) \x7b el.classList.remove(\"fading\"); \x7d);\n        document.documentElement.lang = lang === \"es\" ? \"es\" : \"en\";\n      \x7d, 300);\n    \x7d\n\n    btnEn.addEventListener(\"click\", function() \x7b swap(\"en\"); \x7d);\n    btnEs.addEventListener(\"click\", function() \x7b swap(\"es\"); \x7d);\n  </script>\n</body>\n</html>"

/-- The page text up to (and excluding) the script-block interpolation
`JSON.stringify(translated.title)`: template chunks 0-14 with their
interpolations exactly as in template.js. -/
def pagePrefix (fmtDate : String → String) (post : Post) (tr : Translated) : String :=
  tplChunk0 ++ escHtml tr.title ++
  tplChunk1 ++ escAttr (jsOrS tr.subtitle (jsOrS post.meta.description "")) ++
  tplChunk2 ++ escAttr tr.title ++
  tplChunk3 ++ escAttr (jsOrS tr.subtitle "") ++
  tplChunk4 ++ escAttr post.originalUrl ++
  tplChunk5 ++ escHtml tr.title ++
  tplChunk6 ++ escHtml tr.subtitle ++
  tplChunk7 ++ escHtml (jsOrS post.meta.authors "ConteNIDO") ++
  tplChunk8 ++ dateOf fmtDate post ++
  tplChunk9 ++ tr.contentHtml ++
  tplChunk10 ++ escAttr post.originalUrl ++
  tplChunk11 ++ jsonStringify post.title ++
  tplChunk12 ++ jsonStringify post.subtitle ++
  tplChunk13 ++ jsonStringify post.contentHtml ++
  tplChunk14

/-- The page text after the script-block `JSON.stringify(translated.title)`
interpolation: chunks 15-17 with their interpolations. -/
def pageTail (tr : Translated) : String :=
  tplChunk15 ++ jsonStringify tr.subtitle ++
  tplChunk16 ++ jsonStringify tr.contentHtml ++
  tplChunk17

/-- template.js `renderPage` (the reader page with the inline language-toggle
script): the full template-literal concatenation.  The visible markup and the
head metadata pass `translated.title`/`translated.subtitle` through
`escHtml`/`escAttr`; `translated.contentHtml` is inserted verbatim in the
post-body div; the inline script block serialises the fields with
`JSON.stringify` instead. -/
def renderPage (fmtDate : String → String) (post : Post) (tr : Translated) : String :=
  pagePrefix fmtDate post tr ++ jsonStringify tr.title ++ pageTail tr

/-- The claim read literally: `renderPage` with the translated title and
subtitle passed through `escHtml` at every interpolation point, including the
script block.  Stated from the specification wording, to compare with the
source `renderPage`. -/
def renderPageClaimed (fmtDate : String → String) (post : Post) (tr : Translated) : String :=
  pagePrefix fmtDate post tr ++ jsonStringify (escHtml tr.title) ++
  tplChunk15 ++ jsonStringify (escHtml tr.subtitle) ++
  tplChunk16 ++ jsonStringify tr.contentHtml ++
  tplChunk17

/-- The amended claim as a definition: escHtml/escAttr at every interpolation
of the translated title and subtitle in the HTML markup and head metadata, the
translated body verbatim in the post-body div only, and plain `JSON.stringify`
serialisation (no HTML escaping) for the fields in the inline script block. -/
def renderPageAmended (fmtDate : String → String) (post : Post) (tr : Translated) : String :=
  tplChunk0 ++ escHtml tr.title ++
  tplChunk1 ++ escAttr (jsOrS tr.subtitle (jsOrS post.meta.description "")) ++
  tplChunk2 ++ escAttr tr.title ++
  tplChunk3 ++ escAttr (jsOrS tr.subtitle "") ++
  tplChunk4 ++ escAttr post.originalUrl ++
  tplChunk5 ++ escHtml tr.title ++
  tplChunk6 ++ escHtml tr.subtitle ++
  tplChunk7 ++ escHtml (jsOrS post.meta.authors "ConteNIDO") ++
  tplChunk8 ++ dateOf fmtDate post ++
  tplChunk9 ++ tr.contentHtml ++
  tplChunk10 ++ escAttr post.originalUrl ++
  tplChunk11 ++ jsonStringify post.title ++
  tplChunk12 ++ jsonStringify post.subtitle ++
  tplChunk13 ++ jsonStringify post.contentHtml ++
  tplChunk14 ++ jsonStringify tr.title ++
  tplChunk15 ++ jsonStringify tr.subtitle ++
  tplChunk16 ++ jsonStringify tr.contentHtml ++
  tplChunk17

/-- A replacement pass distributes over list append. -/
theorem replAll_append (a b : List Char) (c : Char) (r : List Char) :
    replAll (a ++ b) c r = replAll a c r ++ replAll b c r := by
  simp [replAll]

/-- On a single character the four sequential passes act as the joint
substitution. -/
theorem escPasses_single (x : Char) :
    replAll (replAll (replAll (replAll [x] '&' "&amp;".data) '<' "&lt;".data)
      '>' "&gt;".data) '"' "&quot;".data = escChar x := by
  by_cases h1 : x = '&'
  · subst h1; rfl
  · by_cases h2 : x = '<'
    · subst h2; rfl
    · by_cases h3 : x = '>'
      · subst h3; rfl
      · by_cases h4 : x = '"'
        · subst h4; rfl
        · simp [replAll, escChar, h1, h2, h3, h4]

/-- The sequential passes of `escHtml` equal the joint character map. -/
theorem escHtml_data (l : List Char) :
    replAll (replAll (replAll (replAll l '&' "&amp;".data) '<' "&lt;".data)
      '>' "&gt;".data) '"' "&quot;".data = l.flatMap escChar := by
  induction l with
  | nil => rfl
  | cons x xs ih =>
    rw [show x :: xs = [x] ++ xs from rfl, replAll_append, replAll_append,
      replAll_append, replAll_append, List.flatMap_append, escPasses_single, ih]
    have hsingle : List.flatMap [x] escChar = escChar x := by simp
    rw [hsingle]

/-- No character produced by the joint map is a raw `<`, `>` or `"`. -/
theorem escChar_no_raw (a c : Char) (hc : c ∈ escChar a) :
    c ≠ '<' ∧ c ≠ '>' ∧ c ≠ '"' := by
  by_cases h1 : a = '&'
  · subst h1; simp [escChar] at hc
    rcases hc with rfl | rfl | rfl | rfl | rfl <;> decide
  · by_cases h2 : a = '<'
    · subst h2; simp [escChar] at hc
      rcases hc with rfl | rfl | rfl | rfl <;> decide
    · by_cases h3 : a = '>'
      · subst h3; simp [escChar] at hc
        rcases hc with rfl | rfl | rfl | rfl <;> decide
      · by_cases h4 : a = '"'
        · subst h4; simp [escChar] at hc
          rcases hc with rfl | rfl | rfl | rfl | rfl | rfl <;> decide
        · simp [escChar, h1, h2, h3, h4] at hc
          subst hc
          exact ⟨h2, h3, h4⟩

/-- Claim C10 counterexample: with the translated title `"<"`, the rendered
page is not what the claim describes — the script-block interpolation
`JSON.stringify(translated.title)` does not pass the title through `escHtml`,
so the two renderings differ (the page carries a raw `<` there). -/
theorem renderPage_escape_counterexample :
    renderPage (fun s => s) (Post.mk "" "" "" "" (PostMeta.mk "" "" ""))
        (Translated.mk "<" "" "") ≠
      renderPageClaimed (fun s => s) (Post.mk "" "" "" "" (PostMeta.mk "" "" ""))
        (Translated.mk "<" "" "") := by
  intro h
  have hd := congrArg String.data h
  simp only [renderPage, renderPageClaimed, String.data_append,
    List.append_assoc] at hd
  have h2 := List.append_cancel_left hd
  have h3 := congrArg (List.take 2) h2
  exact absurd h3 (by decide)

/-- Claim C10 (amended): `escHtml` output contains no raw `<`, `>` or `"`
(each occurrence of `&`, `<`, `>`, `"` becomes its entity — the sequential
passes equal the joint substitution), `escAttr` is an alias of `escHtml`, and
`renderPage` escapes the translated title and subtitle with `escHtml`/`escAttr`
at every interpolation point in the HTML markup and head metadata, inserts
`translated.contentHtml` verbatim only in the post-body div, and serialises
the script-block fields with plain `JSON.stringify` (not `escHtml`). -/
theorem renderPage_escaping_amended :
    (∀ s : String, ∀ c ∈ (escHtml s).data, c ≠ '<' ∧ c ≠ '>' ∧ c ≠ '"') ∧
    (∀ s : String, escHtml s = ⟨s.data.flatMap escChar⟩) ∧
    (∀ s : String, escAttr s = escHtml s) ∧
    (∀ (fmtDate : String → String) (post : Post) (tr : Translated),
        renderPage fmtDate post tr = renderPageAmended fmtDate post tr) := by
  have hjoint : ∀ s : String, escHtml s = ⟨s.data.flatMap escChar⟩ := fun s =>
    congrArg String.mk (escHtml_data s.data)
  refine ⟨?_, hjoint, fun _ => rfl, ?_⟩
  · intro s c hc
    rw [hjoint s] at hc
    obtain ⟨a, -, hca⟩ := List.mem_flatMap.1 hc
    exact escChar_no_raw a c hca
  · intro fmtDate post tr
    simp [renderPage, pagePrefix, pageTail, renderPageAmended, String.append_assoc]

/-- Claim C10 witness: a concrete escaped character membership, and the
amended page equality at a concrete input. -/
theorem renderPage_escaping_amended_witness :
    ('a' ∈ (escHtml "a<b").data) ∧
    ('a' ≠ '<' ∧ 'a' ≠ '>' ∧ 'a' ≠ '"') ∧
    renderPage (fun s => s) (Post.mk "T" "S" "<p>c</p>" "https://x.com"
        (PostMeta.mk "Ana" "2024-01-01" "d"))
        (Translated.mk "Título" "Sub" "<p>t</p>") =
      renderPageAmended (fun s => s) (Post.mk "T" "S" "<p>c</p>" "https://x.com"
        (PostMeta.mk "Ana" "2024-01-01" "d"))
        (Translated.mk "Título" "Sub" "<p>t</p>") :=
  ⟨by decide,
    renderPage_escaping_amended.1 "a<b" 'a' (by decide),
    renderPage_escaping_amended.2.2.2 (fun s => s)
      (Post.mk "T" "S" "<p>c</p>" "https://x.com" (PostMeta.mk "Ana" "2024-01-01" "d"))
      (Translated.mk "Título" "Sub" "<p>t</p>")⟩

end ST
